import Mathlib

/-!
Verification of the quota-aware fetch orchestration and relevance-ranking
pipeline of the neutralnews repository, against its natural-language
specification.

The Python sources are shallowly embedded:

* `app/utils/api_manager.py` — `APIQuota` / `APIManager.can_make_request` /
  `APIManager.handle_rate_limit_error` become pure state-passing functions
  over an `APIQuota` record; `time.time()` becomes an explicit rational
  timestamp argument.
* `processors.py` — `standardize_*`, `remove_duplicates`,
  `filter_relevant_articles`, `analyze_sentiment`, `summarize_articles`
  become functions over an `Article` record.  The TF-IDF cosine similarity
  produced by sklearn inside `filter_relevant_articles` is abstracted as a
  function `simF : Article → ℚ` (identical records carry identical text and
  hence identical similarity); everything after the similarity computation
  is embedded from the source line by line.
* `routes.py` — the batched sentiment scoring and the post-filter
  summary/return logic of `_fetch_and_process_data` become functions whose
  exception behaviour is made explicit with `Except`.

Python string truthiness is `= ""`, `s.strip()` emptiness is
`pyStripEmpty`, and `s.startswith(p)` is `pyStartsWith` (both defined below
over the character list, matching the Python semantics).  Machine floats
are modelled as rationals.
-/

/-- Python `a or b` for strings: `a` when non-empty (truthy), else `b`. -/
def strOr (a b : String) : String := if a = "" then b else a

/-- Python `not s.strip()`: true iff every character of `s` is whitespace. -/
def pyStripEmpty (s : String) : Bool := s.data.all (fun c => c.isWhitespace)

/-- Python `s.startswith(p)`. -/
def pyStartsWith (s p : String) : Bool := p.data.isPrefixOf s.data

/-!
## Quota manager (`app/utils/api_manager.py`)

`APIQuota` is the dataclass of lines 8-18: three per-window limits, three
counters, three last-reset timestamps.
-/

structure APIQuota where
  requests_per_second : ℕ
  requests_per_minute : ℕ
  requests_per_day : ℕ
  current_second : ℕ
  current_minute : ℕ
  current_day : ℕ
  last_second_reset : ℚ
  last_minute_reset : ℚ
  last_day_reset : ℚ
deriving Repr, DecidableEq

/-- Lines 56-67 of `can_make_request`: reset each window whose elapsed time
reaches its length, stamping the reset time.  The three Python statements
update disjoint fields, so the sequential updates are written field-wise. -/
def resetWindows (q : APIQuota) (t : ℚ) : APIQuota :=
  { q with
    current_second := if 1 ≤ t - q.last_second_reset then 0 else q.current_second,
    last_second_reset := if 1 ≤ t - q.last_second_reset then t else q.last_second_reset,
    current_minute := if 60 ≤ t - q.last_minute_reset then 0 else q.current_minute,
    last_minute_reset := if 60 ≤ t - q.last_minute_reset then t else q.last_minute_reset,
    current_day := if 86400 ≤ t - q.last_day_reset then 0 else q.current_day,
    last_day_reset := if 86400 ≤ t - q.last_day_reset then t else q.last_day_reset }

/-- Lines 70-72: the admission condition (all three counters below their
limits).  In the Python source this read of the three counters is a
distinct step from the increments that follow it, and `APIManager` holds no
lock around the two. -/
def limitCheck (q : APIQuota) : Prop :=
  q.current_second < q.requests_per_second ∧
  q.current_minute < q.requests_per_minute ∧
  q.current_day < q.requests_per_day

instance (q : APIQuota) : Decidable (limitCheck q) := by
  unfold limitCheck; infer_instance

/-- Lines 74-85: increment all three counters and return `True` when the
check passed, otherwise return `False` leaving the counters unchanged. -/
def commitAdmission (q : APIQuota) (d : Bool) : Bool × APIQuota :=
  if d then
    (true, { q with current_second := q.current_second + 1,
                    current_minute := q.current_minute + 1,
                    current_day := q.current_day + 1 })
  else (false, q)

/-- `APIManager.can_make_request` (lines 48-85) for a configured source:
reset elapsed windows, check all three limits, and admit-and-increment or
deny.  `t` is the value of `time.time()`. -/
def canMakeRequest (q : APIQuota) (t : ℚ) : Bool × APIQuota :=
  let q1 := resetWindows q t
  commitAdmission q1 (decide (limitCheck q1))

/-- `APIManager.handle_rate_limit_error` (lines 118-126): derate the
minute/day limits to 75 percent (floors 1 and 10); `int(x * 0.75)` on a
natural number is `x * 3 / 4` with truncating division. -/
def handleRateLimitError (q : APIQuota) : APIQuota :=
  { q with requests_per_minute := max 1 (q.requests_per_minute * 3 / 4),
           requests_per_day := max 10 (q.requests_per_day * 3 / 4) }

/-- A sequence of `can_make_request` calls at the given timestamps. -/
def runCalls (q : APIQuota) : List ℚ → APIQuota
  | [] => q
  | t :: ts => runCalls (canMakeRequest q t).2 ts

/-- The spec invariant: each counter is at most the limit of its window. -/
def quotaInvariant (q : APIQuota) : Prop :=
  q.current_second ≤ q.requests_per_second ∧
  q.current_minute ≤ q.requests_per_minute ∧
  q.current_day ≤ q.requests_per_day

/-- Two threads interleaved inside `can_make_request` on the same
`APIQuota` at the same timestamp: both run the reset and limit-check steps
(lines 56-72) before either runs the increment step (lines 74-76).  The
Python code holds no lock, so this interleaving is possible under the
thread pool of `routes.py`. -/
def interleavedCanMakeRequest (q : APIQuota) (t : ℚ) : (Bool × Bool) × APIQuota :=
  let qA := resetWindows q t
  let dA := decide (limitCheck qA)
  let qB := resetWindows qA t
  let dB := decide (limitCheck qB)
  let p1 := commitAdmission qB dA
  let p2 := commitAdmission p1.2 dB
  ((p1.1, p2.1), p2.2)

/-- The quota configured for the `newsapi` source in
`app/config/api_config.py`, at process start (all counters 0, all reset
stamps equal to the start time 0). -/
def newsapiQuota : APIQuota :=
  { requests_per_second := 1, requests_per_minute := 30, requests_per_day := 1000,
    current_second := 0, current_minute := 0, current_day := 0,
    last_second_reset := 0, last_minute_reset := 0, last_day_reset := 0 }

theorem canMakeRequest_preserves_invariant (q : APIQuota) (t : ℚ)
    (h : quotaInvariant q) : quotaInvariant (canMakeRequest q t).2 := by
  unfold quotaInvariant at h ⊢
  simp only [canMakeRequest, resetWindows, commitAdmission, limitCheck, decide_eq_true_eq]
  split_ifs <;> simp_all <;> omega

theorem runCalls_preserves_invariant (ts : List ℚ) (q : APIQuota)
    (h : quotaInvariant q) : quotaInvariant (runCalls q ts) := by
  induction ts generalizing q with
  | nil => exact h
  | cons t ts ih => exact ih _ (canMakeRequest_preserves_invariant q t h)

/-- Claim C1: for a source whose window has limit `L`, once the counter of
that window has reached `L` (which is what `L` admitted calls inside the
window produce, each admission incrementing the counter by one), every
further `can_make_request` call before the window elapses returns `False`
and leaves that counter unchanged; once `now - last_reset` reaches the
window length the counter is reset to 0 and, provided the other two
windows are below their limits, the call is admitted again (counter
becomes 1).  Stated for each of the three windows (1s / 60s / 86400s). -/
theorem canMakeRequest_limit_blocks_until_window_elapses (q : APIQuota) (t : ℚ) :
    ((q.requests_per_second ≤ q.current_second → t - q.last_second_reset < 1 →
        (canMakeRequest q t).1 = false ∧
        (canMakeRequest q t).2.current_second = q.current_second) ∧
      (1 ≤ t - q.last_second_reset →
        ((canMakeRequest q t).1 = false → (canMakeRequest q t).2.current_second = 0) ∧
        (q.current_minute < q.requests_per_minute → q.current_day < q.requests_per_day →
          0 < q.requests_per_second →
          (canMakeRequest q t).1 = true ∧ (canMakeRequest q t).2.current_second = 1))) ∧
    ((q.requests_per_minute ≤ q.current_minute → t - q.last_minute_reset < 60 →
        (canMakeRequest q t).1 = false ∧
        (canMakeRequest q t).2.current_minute = q.current_minute) ∧
      (60 ≤ t - q.last_minute_reset →
        ((canMakeRequest q t).1 = false → (canMakeRequest q t).2.current_minute = 0) ∧
        (q.current_second < q.requests_per_second → q.current_day < q.requests_per_day →
          0 < q.requests_per_minute →
          (canMakeRequest q t).1 = true ∧ (canMakeRequest q t).2.current_minute = 1))) ∧
    ((q.requests_per_day ≤ q.current_day → t - q.last_day_reset < 86400 →
        (canMakeRequest q t).1 = false ∧
        (canMakeRequest q t).2.current_day = q.current_day) ∧
      (86400 ≤ t - q.last_day_reset →
        ((canMakeRequest q t).1 = false → (canMakeRequest q t).2.current_day = 0) ∧
        (q.current_second < q.requests_per_second → q.current_minute < q.requests_per_minute →
          0 < q.requests_per_day →
          (canMakeRequest q t).1 = true ∧ (canMakeRequest q t).2.current_day = 1))) := by
  simp only [canMakeRequest, resetWindows, commitAdmission, limitCheck, decide_eq_true_eq]
  split_ifs <;> simp_all <;> and_intros <;> intros <;>
    first | rfl | omega | linarith | simp_all

/-- Witness for C1 at the `newsapi` quota with the second counter at its
limit 1: a call at `t = 1/2` (window not elapsed) is denied; a call at
`t = 2` (window elapsed) is admitted with the counter back at 1. -/
theorem canMakeRequest_limit_blocks_until_window_elapses_w :
    (canMakeRequest { newsapiQuota with current_second := 1 } (1/2)).1 = false ∧
    (canMakeRequest { newsapiQuota with current_second := 1 } 2).1 = true := by
  have h1 := (canMakeRequest_limit_blocks_until_window_elapses
    { newsapiQuota with current_second := 1 } (1/2)).1.1
  have h2 := (canMakeRequest_limit_blocks_until_window_elapses
    { newsapiQuota with current_second := 1 } 2).1.2
  refine ⟨(h1 (by norm_num [newsapiQuota]) (by norm_num [newsapiQuota])).1, ?_⟩
  exact ((h2 (by norm_num [newsapiQuota])).2 (by norm_num [newsapiQuota])
    (by norm_num [newsapiQuota]) (by norm_num [newsapiQuota])).1

/-- Claim C2 counterexample: from the fresh quota with minute limit 2
(second limit 1000, day limit 1000), two admitted calls at time 0 put the
minute counter at 2; `handle_rate_limit_error` then derates the minute
limit to `max(1, int(2 * 0.75)) = 1`, leaving the counter 2 strictly above
the limit — the claimed invariant fails after this quota-manager
operation sequence. -/
def minuteTwoQuota : APIQuota :=
  { requests_per_second := 1000, requests_per_minute := 2, requests_per_day := 1000,
    current_second := 0, current_minute := 0, current_day := 0,
    last_second_reset := 0, last_minute_reset := 0, last_day_reset := 0 }

theorem handleRateLimitError_breaks_counter_le_limit :
    (handleRateLimitError (runCalls minuteTwoQuota [0, 0])).requests_per_minute <
      (handleRateLimitError (runCalls minuteTwoQuota [0, 0])).current_minute ∧
    (runCalls minuteTwoQuota [0, 0]).current_minute ≤
      (runCalls minuteTwoQuota [0, 0]).requests_per_minute := by
  norm_num [runCalls, canMakeRequest, resetWindows, commitAdmission, limitCheck,
    handleRateLimitError, minuteTwoQuota]

/-- Claim C2, amended: along any sequence of `can_make_request` calls each
counter stays at most its limit (the invariant holds post-enforcement),
and a window that has elapsed is reset: after a call with
`now - last_reset >= window length` the counter of that window is at most
1 (0 when the call was denied, 1 when admitted).  `handle_rate_limit_error`
leaves all counters unchanged while lowering the minute/day limits, which
is what breaks the unqualified invariant of the original claim. -/
theorem quota_invariant_for_canMakeRequest_traces (q : APIQuota) (ts : List ℚ) (t : ℚ)
    (h : quotaInvariant q) :
    quotaInvariant (runCalls q ts) ∧
    (1 ≤ t - q.last_second_reset → (canMakeRequest q t).2.current_second ≤ 1) ∧
    (60 ≤ t - q.last_minute_reset → (canMakeRequest q t).2.current_minute ≤ 1) ∧
    (86400 ≤ t - q.last_day_reset → (canMakeRequest q t).2.current_day ≤ 1) ∧
    (handleRateLimitError q).current_second = q.current_second ∧
    (handleRateLimitError q).current_minute = q.current_minute ∧
    (handleRateLimitError q).current_day = q.current_day := by
  refine ⟨runCalls_preserves_invariant ts q h, ?_, ?_, ?_, rfl, rfl, rfl⟩ <;>
    · intro ht
      simp only [canMakeRequest, resetWindows, commitAdmission, limitCheck, decide_eq_true_eq]
      split_ifs <;> simp_all <;> omega

/-- Witness for the amended C2 at the `newsapi` quota, trace of two calls
at times 0 and 3. -/
theorem quota_invariant_for_canMakeRequest_traces_w :
    quotaInvariant (runCalls newsapiQuota [0, 3]) ∧
    (canMakeRequest newsapiQuota 3).2.current_second ≤ 1 := by
  have h := quota_invariant_for_canMakeRequest_traces newsapiQuota [0, 3] 3
    (by norm_num [quotaInvariant, newsapiQuota])
  exact ⟨h.1, h.2.1 (by norm_num [newsapiQuota])⟩

/-- Claim C3: the Python `can_make_request` has no lock, so its limit check
(lines 70-72) and its counter increments (lines 74-76) can interleave
across two threads.  On the `newsapi` quota (limit 1 request per second)
the interleaving in which both threads pass the check before either
increments returns `True` to both — not exactly one `True` — while the
serialized execution returns one `True` and one `False` as the spec
requires.  The spec (section 5) demands per-source serialization; the code
provides none, so this is a code bug. -/
theorem canMakeRequest_interleaving_admits_both :
    (interleavedCanMakeRequest newsapiQuota 0).1 = (true, true) ∧
    (canMakeRequest newsapiQuota 0).1 = true ∧
    (canMakeRequest (canMakeRequest newsapiQuota 0).2 0).1 = false := by
  norm_num [interleavedCanMakeRequest, canMakeRequest, resetWindows,
    commitAdmission, limitCheck, newsapiQuota]

/-!
## Articles and source adapters (`processors.py`)

A standardized article.  `share_count` is read by
`filter_relevant_articles` with `article.get('share_count', 0)` and is
never set by the standardizers, hence the default 0.  `sentiment_score` is
attached by the batched scoring in `routes.py` (default 0 before that).
-/

structure Article where
  title : String
  url : String
  content : String
  source : String
  share_count : ℚ := 0
  sentiment_score : ℚ := 0
deriving Repr, DecidableEq

/-- A raw GNews item (`standardize_gnews_articles`, lines 123-141): every
field is read with `.get` and a default, the nested
`.get('source', {}).get('name', 'GNews')` is flattened into one optional
field.  No field access can raise, so no item is ever dropped. -/
structure GNewsRaw where
  title : Option String
  url : Option String
  content : Option String
  sourceName : Option String
deriving Repr, DecidableEq

def standardize_gnews_articles (articles : List GNewsRaw) : List Article :=
  articles.map (fun r =>
    { title := r.title.getD ("No title available"),
      url := r.url.getD ("#"),
      content := r.content.getD (""),
      source := r.sourceName.getD ("GNews") })

/-- A raw Aylien item (`standardize_aylien_articles`, lines 103-121):
`title`, `url`, `content` and `source` are accessed with `[...]`, so a
missing key raises `KeyError`, which the per-item `except` turns into a
drop.  `source` is `source['name']` when that is a dict with a `name` key,
else the literal `Aylien`; the outer option is key presence, the inner one
is dict-with-name. -/
structure AylienRaw where
  title : Option String
  url : Option String
  content : Option String
  source : Option (Option String)
deriving Repr, DecidableEq

def standardize_aylien_articles (articles : List AylienRaw) : List Article :=
  articles.filterMap (fun r =>
    match r.title, r.url, r.content, r.source with
    | some t, some u, some c, some s =>
        some { title := t, url := u, content := c, source := s.getD ("Aylien") }
    | _, _, _, _ => none)

/-- A raw NewsAPI.org / Guardian item (`standardize_articles`,
lines 143-160). -/
structure NewsRaw where
  title : Option String
  url : Option String
  content : Option String
  webTitle : Option String
  webUrl : Option String
  sourceName : Option String
deriving Repr, DecidableEq

/-- Line 149: `article.get('content', '') or article.get('webTitle', '')`. -/
def stdContent (r : NewsRaw) : String :=
  strOr (r.content.getD ("")) (r.webTitle.getD (""))

/-- Lines 153-158: the article built for an item that is not dropped. -/
def stdArticle (source : String) (r : NewsRaw) : Article :=
  { title := strOr (r.title.getD ("")) (r.webTitle.getD ("No title available")),
    url := strOr (r.url.getD ("")) (r.webUrl.getD ("#")),
    content := stdContent r,
    source := if source = "NewsAPI" then r.sourceName.getD ("Unknown") else source }

/-- `standardize_articles` (lines 143-160): items whose content (after the
webTitle fallback) strips to empty are dropped (`continue`). -/
def standardize_articles (articles : List NewsRaw) (source : String) : List Article :=
  articles.filterMap (fun r =>
    if pyStripEmpty (stdContent r) then none else some (stdArticle source r))

/-- A raw NYT item (`standardize_nyt_articles`, lines 162-187);
`headline` is `article.get('headline', {}).get('main', '')`, flattened. -/
structure NytRaw where
  headlineMain : Option String
  abstract : Option String
  leadParagraph : Option String
  webUrl : Option String
deriving Repr, DecidableEq

def standardize_nyt_articles (articles : List NytRaw) : List Article :=
  articles.filterMap (fun r =>
    let content := strOr (r.abstract.getD ("")) (r.leadParagraph.getD (""))
    if pyStripEmpty content then none
    else some { title := strOr (r.headlineMain.getD ("")) ("No title available"),
                url := r.webUrl.getD ("#"),
                content := content,
                source := "New York Times" })

/-- A raw Mediastack item (`standardize_mediastack_articles`,
lines 189-214); `source` is a plain string field here. -/
structure MediastackRaw where
  title : Option String
  description : Option String
  url : Option String
  source : Option String
deriving Repr, DecidableEq

def standardize_mediastack_articles (articles : List MediastackRaw) : List Article :=
  articles.filterMap (fun r =>
    let content := r.description.getD ("")
    if pyStripEmpty content then none
    else some { title := strOr (r.title.getD ("")) ("No title available"),
                url := r.url.getD ("#"),
                content := content,
                source := r.source.getD ("Mediastack") })

/-- A raw NewsAPI.ai item (`standardize_newsapi_ai_articles`,
lines 216-241); `source` is `.get('source', {}).get('title', 'NewsAPI.ai')`,
flattened. -/
structure NewsApiAiRaw where
  title : Option String
  body : Option String
  description : Option String
  url : Option String
  sourceTitle : Option String
deriving Repr, DecidableEq

def standardize_newsapi_ai_articles (articles : List NewsApiAiRaw) : List Article :=
  articles.filterMap (fun r =>
    let content := strOr (r.body.getD ("")) (r.description.getD (""))
    if pyStripEmpty content then none
    else some { title := strOr (r.title.getD ("")) ("No title available"),
                url := r.url.getD ("#"),
                content := content,
                source := r.sourceTitle.getD ("NewsAPI.ai") })

/-!
## Deduplicator (`remove_duplicates`, lines 274-285)

`seen_titles` is a set of title strings; an article is kept only when its
title is truthy (non-empty) and not seen before.
-/

def removeDuplicatesGo (seen : List String) : List Article → List Article
  | [] => []
  | a :: rest =>
      if a.title ≠ "" ∧ a.title ∉ seen then
        a :: removeDuplicatesGo (a.title :: seen) rest
      else removeDuplicatesGo seen rest

def remove_duplicates (articles : List Article) : List Article :=
  removeDuplicatesGo [] articles

/-!
## Relevance/popularity ranker (`filter_relevant_articles`, lines 287-316)

The sklearn TF-IDF cosine similarity of an article against the query is
abstracted as `simF : Article → ℚ` (two equal records carry the same text,
hence the same similarity); everything from line 303 on — share-count
normalization, threshold filter, combined score, the stable descending
Python `sorted`, truncation — is embedded directly.  `RankConfig` models
the `get_config(key, default)` lookups of lines 289-292: an optional
configured value, falling back to the literal defaults of `processors.py`.
-/

structure RankConfig where
  DEFAULT_TOP_N : Option ℕ := none
  RELEVANCE_THRESHOLD : Option ℚ := none
  WEIGHT_RELEVANCE : Option ℚ := none
  WEIGHT_POPULARITY : Option ℚ := none
deriving Repr, DecidableEq

def RankConfig.topNDefault (c : RankConfig) : ℕ := c.DEFAULT_TOP_N.getD 5

def RankConfig.thresholdDefault (c : RankConfig) : ℚ := c.RELEVANCE_THRESHOLD.getD (1/10)

def RankConfig.wRel (c : RankConfig) : ℚ := c.WEIGHT_RELEVANCE.getD (7/10)

def RankConfig.wPop (c : RankConfig) : ℚ := c.WEIGHT_POPULARITY.getD (3/10)

/-- Line 289: `top_n = top_n or get_config('DEFAULT_TOP_N', 5)` — `None`
and `0` are both falsy. -/
def effTopN (c : RankConfig) : Option ℕ → ℕ
  | none => c.topNDefault
  | some n => if n = 0 then c.topNDefault else n

/-- Line 290: `relevance_threshold = relevance_threshold or
get_config('RELEVANCE_THRESHOLD', 0.1)` — `None` and `0` (and `0.0`) are
falsy; any non-zero value, including a negative one, is used as given. -/
def effThreshold (c : RankConfig) : Option ℚ → ℚ
  | none => c.thresholdDefault
  | some t => if t = 0 then c.thresholdDefault else t

/-- Line 294: `article.get('content', '') or article.get('title', '')`. -/
def articleText (a : Article) : String := strOr a.content a.title

/-- Line 304: `max(share_counts) if share_counts else 0`. -/
def maxShareCount (articles : List Article) : ℚ :=
  ((articles.map Article.share_count).max?).getD 0

/-- Line 309: `share_count / max_share_count if max_share_count > 0 else 0`. -/
def normalizedShare (articles : List Article) (a : Article) : ℚ :=
  if 0 < maxShareCount articles then a.share_count / maxShareCount articles else 0

/-- Line 310: `similarity * weight_relevance + normalized_share_count *
weight_popularity`. -/
def combinedScore (c : RankConfig) (articles : List Article) (simF : Article → ℚ)
    (a : Article) : ℚ :=
  simF a * c.wRel + normalizedShare articles a * c.wPop

/-- `filter_relevant_articles` (lines 287-316).  Python `sorted` with
`reverse=True` is a stable descending sort, embedded as insertion sort on
the relation that puts the higher combined score first and, on ties, keeps
the earlier element first. -/
def filter_relevant_articles (c : RankConfig) (simF : Article → ℚ)
    (articles : List Article) (top_n : Option ℕ) (relevance_threshold : Option ℚ) :
    List Article :=
  let tn := effTopN c top_n
  let rt := effThreshold c relevance_threshold
  if (articles.map articleText).all (fun s => s == "") then articles.take tn
  else
    let kept := articles.filter (fun a => decide (rt ≤ simF a))
    (List.insertionSort
      (fun a b => combinedScore c articles simF b ≤ combinedScore c articles simF a)
      kept).take tn

/-!
Stability of the embedded sort: the sorted list, restricted to any one
score fiber, equals the input restricted to that fiber (equal-score
elements keep their arrival order), and the sort is a permutation
producing a descending `Pairwise` relation.
-/

theorem filter_key_orderedInsert {α : Type} (key : α → ℚ) (s : ℚ) (x : α) (l : List α) :
    (List.orderedInsert (fun a b => key b ≤ key a) x l).filter
        (fun a => decide (key a = s)) =
      if key x = s then x :: l.filter (fun a => decide (key a = s))
      else l.filter (fun a => decide (key a = s)) := by
  induction l with
  | nil => simp [List.orderedInsert, List.filter_cons]
  | cons b l ih =>
    simp only [List.orderedInsert]
    by_cases hbx : key b ≤ key x
    · rw [if_pos hbx]
      by_cases hx : key x = s <;> simp [List.filter_cons, hx]
    · rw [if_neg hbx]
      have hlt : key x < key b := lt_of_not_le hbx
      by_cases hx : key x = s
      · have hb : ¬ key b = s := by rw [← hx] at *; exact ne_of_gt hlt
        simp [List.filter_cons, hb, ih, hx]
      · by_cases hb : key b = s <;> simp [List.filter_cons, hb, ih, hx]

theorem filter_key_insertionSort {α : Type} (key : α → ℚ) (s : ℚ) (l : List α) :
    (List.insertionSort (fun a b => key b ≤ key a) l).filter
        (fun a => decide (key a = s)) =
      l.filter (fun a => decide (key a = s)) := by
  induction l with
  | nil => rfl
  | cons x l ih =>
    simp only [List.insertionSort, filter_key_orderedInsert, ih]
    by_cases hx : key x = s <;> simp [List.filter_cons, hx]

theorem pairwise_insertionSort_key {α : Type} (key : α → ℚ) (l : List α) :
    (List.insertionSort (fun a b => key b ≤ key a) l).Pairwise
      (fun a b => key b ≤ key a) := by
  haveI : IsTotal α (fun a b => key b ≤ key a) := ⟨fun a b => le_total (key b) (key a)⟩
  haveI : IsTrans α (fun a b => key b ≤ key a) :=
    ⟨fun _ _ _ h1 h2 => le_trans h2 h1⟩
  exact List.sorted_insertionSort _ l

theorem mem_insertionSort_key {α : Type} (key : α → ℚ) (l : List α) (a : α) :
    a ∈ List.insertionSort (fun a b => key b ≤ key a) l ↔ a ∈ l :=
  (List.perm_insertionSort _ l).mem_iff

/-- Claim C6 counterexample: an article whose title is the empty string is
dropped by `remove_duplicates` even though it is the first occurrence of
its (empty) title — the condition on line 281 is `if title and title not
in seen_titles`, so a falsy title is never kept. -/
theorem remove_duplicates_drops_empty_title :
    remove_duplicates [{ title := "", url := "u", content := "c", source := "s" }] = [] := by
  rfl

/-- Claim C6, amended: `remove_duplicates` is stable and order-preserving
(its output is a sublist of its input); it keeps exactly the first
occurrence of each distinct NON-EMPTY title and drops every article whose
title is the empty string, as well as later articles repeating an earlier
title: every kept article has a non-empty title, kept titles are pairwise
distinct, every non-empty input title is represented, and each kept
article is the first article of the input carrying its title. -/
theorem remove_duplicates_keeps_first_nonempty_title (l : List Article) :
    List.Sublist (remove_duplicates l) l ∧
    (∀ a ∈ remove_duplicates l, a.title ≠ "") ∧
    ((remove_duplicates l).map Article.title).Nodup ∧
    (∀ a ∈ l, a.title ≠ "" → a.title ∈ (remove_duplicates l).map Article.title) ∧
    (∀ a ∈ remove_duplicates l,
      (l.filter (fun b => decide (b.title = a.title))).head? = some a) := by
  have hsub : ∀ seen l, List.Sublist (removeDuplicatesGo seen l) l := by
    intro seen l
    induction l generalizing seen with
    | nil => simp [removeDuplicatesGo]
    | cons b rest ih =>
      simp only [removeDuplicatesGo]
      split_ifs
      · exact List.Sublist.cons₂ b (ih _)
      · exact List.Sublist.cons b (ih _)
  have hne : ∀ seen l a, a ∈ removeDuplicatesGo seen l → a.title ≠ "" ∧ a.title ∉ seen := by
    intro seen l
    induction l generalizing seen with
    | nil => simp [removeDuplicatesGo]
    | cons b rest ih =>
      intro a ha
      simp only [removeDuplicatesGo] at ha
      split_ifs at ha with hc
      · rcases List.mem_cons.mp ha with h | h
        · subst h; exact ⟨hc.1, hc.2⟩
        · have := ih _ a h
          exact ⟨this.1, fun hs => this.2 (List.mem_cons_of_mem _ hs)⟩
      · exact ih _ a ha
  have hnodup : ∀ seen l, ((removeDuplicatesGo seen l).map Article.title).Nodup := by
    intro seen l
    induction l generalizing seen with
    | nil => simp [removeDuplicatesGo]
    | cons b rest ih =>
      simp only [removeDuplicatesGo]
      split_ifs with hc
      · simp only [List.map_cons, List.nodup_cons]
        refine ⟨fun hmem => ?_, ih _⟩
        rcases List.mem_map.mp hmem with ⟨a, ha, hta⟩
        exact (hne _ _ a ha).2 (by rw [hta]; exact List.mem_cons_self _ _)
      · exact ih _
  have hcov : ∀ seen l a, a ∈ l → a.title ≠ "" →
      a.title ∈ seen ∨ a.title ∈ (removeDuplicatesGo seen l).map Article.title := by
    intro seen l
    induction l generalizing seen with
    | nil => simp
    | cons b rest ih =>
      intro a ha hta
      simp only [removeDuplicatesGo]
      split_ifs with hc
      · rcases List.mem_cons.mp ha with h | h
        · subst h; right; simp
        · rcases ih (b.title :: seen) a h hta with hs | hs
          · rcases List.mem_cons.mp hs with h2 | h2
            · right
              rw [List.map_cons, h2]
              exact List.mem_cons_self _ _
            · left; exact h2
          · right
            rw [List.map_cons]
            exact List.mem_cons_of_mem _ hs
      · rcases List.mem_cons.mp ha with h | h
        · subst h
          rcases not_and_or.mp hc with h2 | h2
          · exact absurd hta (by simpa using h2)
          · left; simpa using h2
        · exact ih _ a h hta
  have hfirst : ∀ seen l a, a ∈ removeDuplicatesGo seen l →
      (l.filter (fun b => decide (b.title = a.title))).head? = some a := by
    intro seen l
    induction l generalizing seen with
    | nil => simp [removeDuplicatesGo]
    | cons b rest ih =>
      intro a ha
      simp only [removeDuplicatesGo] at ha
      split_ifs at ha with hc
      · rcases List.mem_cons.mp ha with h | h
        · subst h
          simp [List.filter_cons]
        · have hmem := hne _ _ a h
          have hba : ¬ b.title = a.title := by
            intro he
            exact hmem.2 (by rw [← he]; exact List.mem_cons_self _ _)
          simpa [List.filter_cons, hba] using ih _ a h
      · have hmem := hne _ _ a ha
        have hba : ¬ b.title = a.title := by
          rcases not_and_or.mp hc with h2 | h2
          · intro he
            exact hmem.1 (by rw [← he]; simpa using h2)
          · intro he
            exact hmem.2 (by rw [← he]; simpa using h2)
        simpa [List.filter_cons, hba] using ih _ a ha
  refine ⟨hsub [] l, fun a ha => (hne [] l a ha).1, hnodup [] l, ?_, hfirst [] l⟩
  intro a ha hta
  rcases hcov [] l a ha hta with hs | hs
  · simp at hs
  · exact hs

/-- Witness for the amended C6: a duplicate-title list; the first
occurrence is kept, and it is the head of its title fiber. -/
theorem remove_duplicates_keeps_first_nonempty_title_w :
    ("A" : String) ∈
      (remove_duplicates
        [{ title := "A", url := "u1", content := "c1", source := "s1" },
         { title := "A", url := "u2", content := "c2", source := "s2" },
         { title := "B", url := "u3", content := "c3", source := "s3" }]).map
        Article.title := by
  exact (remove_duplicates_keeps_first_nonempty_title
    [{ title := "A", url := "u1", content := "c1", source := "s1" },
     { title := "A", url := "u2", content := "c2", source := "s2" },
     { title := "B", url := "u3", content := "c3", source := "s3" }]).2.2.2.1
    { title := "A", url := "u1", content := "c1", source := "s1" }
    (by simp) (by decide)

/-- Claim C7 counterexample: `standardize_gnews_articles` forwards an item
with no content as an Article whose content is the empty string (line 133
defaults to an empty string and nothing drops it), and
`standardize_aylien_articles` forwards a present-but-empty content field
(lines 110-117 copy `article['content']` without any emptiness check) —
so the claim that every adapter drops empty-content items is false. -/
theorem standardize_gnews_aylien_forward_empty_content :
    standardize_gnews_articles
        [{ title := some "T", url := some "u", content := none, sourceName := some "S" }] =
      [{ title := "T", url := "u", content := "", source := "S" }] ∧
    standardize_aylien_articles
        [{ title := some "T", url := some "u", content := some "", source := some none }] =
      [{ title := "T", url := "u", content := "", source := "Aylien" }] := by
  constructor <;> rfl

/-- Claim C7, amended: the NewsAPI.org/Guardian, NYT, Mediastack and
NewsAPI.ai standardizers drop every item whose content is still empty
(all-whitespace) after the provider-specific fallbacks, so none of their
returned articles has empty content text; the GNews and Aylien
standardizers perform no such check and can forward empty content (shown
by the counterexample). -/
theorem standardize_dropping_adapters_nonempty_content
    (rs : List NewsRaw) (src : String) (ns : List NytRaw)
    (ms : List MediastackRaw) (nas : List NewsApiAiRaw) :
    (∀ a ∈ standardize_articles rs src, pyStripEmpty a.content = false) ∧
    (∀ a ∈ standardize_nyt_articles ns, pyStripEmpty a.content = false) ∧
    (∀ a ∈ standardize_mediastack_articles ms, pyStripEmpty a.content = false) ∧
    (∀ a ∈ standardize_newsapi_ai_articles nas, pyStripEmpty a.content = false) := by
  refine ⟨?_, ?_, ?_, ?_⟩ <;>
    · intro a ha
      simp only [standardize_articles, standardize_nyt_articles,
        standardize_mediastack_articles, standardize_newsapi_ai_articles,
        List.mem_filterMap] at ha
      rcases ha with ⟨r, _, hr⟩
      split_ifs at hr with hs
      all_goals try (cases hr)
      all_goals simp_all [stdArticle, stdContent]

/-- Witness for the amended C7: a Guardian item with content `c` is kept
and its standardized article has non-empty content. -/
theorem standardize_dropping_adapters_nonempty_content_w :
    pyStripEmpty
        (stdArticle ("Guardian")
          { title := some "T", url := some "u", content := some "c",
            webTitle := none, webUrl := none, sourceName := none }).content = false := by
  exact (standardize_dropping_adapters_nonempty_content
    [{ title := some "T", url := some "u", content := some "c",
       webTitle := none, webUrl := none, sourceName := none }] ("Guardian") [] [] []).1
    (stdArticle ("Guardian")
      { title := some "T", url := some "u", content := some "c",
        webTitle := none, webUrl := none, sourceName := none })
    (by decide)

/-- A concrete article with text, used in ranking witnesses. -/
def artClimate : Article :=
  { title := "t", url := "u", content := "climate", source := "s" }

theorem filter_relevant_articles_branch (c : RankConfig) (simF : Article → ℚ)
    (articles : List Article) (top_n : Option ℕ) (relevance_threshold : Option ℚ)
    (htext : ((articles.map articleText).all (fun s => s == "")) = false) :
    filter_relevant_articles c simF articles top_n relevance_threshold =
      (List.insertionSort
        (fun a b => combinedScore c articles simF b ≤ combinedScore c articles simF a)
        (articles.filter
          (fun a => decide (effThreshold c relevance_threshold ≤ simF a)))).take
        (effTopN c top_n) := by
  unfold filter_relevant_articles
  rw [if_neg]
  rw [htext]
  simp

/-- Claim C4 counterexample: with `top_n = 0` the result is NOT truncated
to at most 0 articles — `0` is falsy, line 289 replaces it by the
configured default, and the single (fully relevant) article is returned. -/
theorem filter_relevant_articles_zero_top_n_not_respected :
    (filter_relevant_articles {} (fun _ => 1) [artClimate] (some 0) none).length = 1 := by
  rw [filter_relevant_articles_branch {} (fun _ => 1) [artClimate] (some 0) none (by decide)]
  norm_num [effTopN, effThreshold, RankConfig.topNDefault, RankConfig.thresholdDefault,
    artClimate, List.insertionSort]

/-- Claim C4, amended: for the effective parameters — a falsy (`None`/`0`)
`top_n` or `relevance_threshold` is replaced by the configured default —
and whenever at least one article has text (otherwise line 296 returns the
first `top_n` articles unscored): every returned article has similarity at
least the effective threshold (hence at least any requested threshold `t`,
the default being non-negative), the output is the stable descending sort
by combined score of the threshold-surviving articles truncated to the
effective `top_n`, it is `Pairwise` descending in combined score, ties
keep arrival order (each combined-score fiber of the sorted list equals
that fiber of the input), and its length is at most the effective
`top_n`. -/
theorem filter_relevant_articles_threshold_sorted_truncated
    (c : RankConfig) (simF : Article → ℚ) (articles : List Article)
    (top_n : Option ℕ) (relevance_threshold : Option ℚ)
    (htext : ((articles.map articleText).all (fun s => s == "")) = false)
    (hd : 0 ≤ c.thresholdDefault) :
    (∀ a ∈ filter_relevant_articles c simF articles top_n relevance_threshold,
      effThreshold c relevance_threshold ≤ simF a) ∧
    (∀ t, relevance_threshold = some t →
      ∀ a ∈ filter_relevant_articles c simF articles top_n relevance_threshold,
        t ≤ simF a) ∧
    (filter_relevant_articles c simF articles top_n relevance_threshold).Pairwise
      (fun a b => combinedScore c articles simF b ≤ combinedScore c articles simF a) ∧
    (∀ s : ℚ,
      (List.insertionSort
        (fun a b => combinedScore c articles simF b ≤ combinedScore c articles simF a)
        (articles.filter
          (fun a => decide (effThreshold c relevance_threshold ≤ simF a)))).filter
          (fun a => decide (combinedScore c articles simF a = s)) =
        (articles.filter
          (fun a => decide (effThreshold c relevance_threshold ≤ simF a))).filter
          (fun a => decide (combinedScore c articles simF a = s))) ∧
    filter_relevant_articles c simF articles top_n relevance_threshold =
      (List.insertionSort
        (fun a b => combinedScore c articles simF b ≤ combinedScore c articles simF a)
        (articles.filter
          (fun a => decide (effThreshold c relevance_threshold ≤ simF a)))).take
        (effTopN c top_n) ∧
    (filter_relevant_articles c simF articles top_n relevance_threshold).length ≤
      effTopN c top_n := by
  have hbr := filter_relevant_articles_branch c simF articles top_n relevance_threshold htext
  have hmem : ∀ a ∈ filter_relevant_articles c simF articles top_n relevance_threshold,
      effThreshold c relevance_threshold ≤ simF a := by
    intro a ha
    rw [hbr] at ha
    have h1 := List.mem_of_mem_take ha
    have h2 := (mem_insertionSort_key (combinedScore c articles simF) _ a).mp h1
    have h3 := List.of_mem_filter h2
    simpa using h3
  refine ⟨hmem, ?_, ?_, ?_, hbr, ?_⟩
  · intro t ht a ha
    have h1 := hmem a ha
    rw [ht] at h1
    simp only [effThreshold] at h1
    split_ifs at h1 with h0
    · subst h0; linarith
    · exact h1
  · rw [hbr]
    exact (pairwise_insertionSort_key (combinedScore c articles simF) _).sublist
      (List.take_sublist _ _)
  · intro s
    exact filter_key_insertionSort (combinedScore c articles simF) s _
  · rw [hbr]
    rw [List.length_take]
    exact min_le_left _ _

/-- Witness for the amended C4 at one fully relevant article and default
parameters: the output respects the effective truncation bound. -/
theorem filter_relevant_articles_threshold_sorted_truncated_w :
    (filter_relevant_articles {} (fun _ => 1) [artClimate] none none).length ≤
      effTopN {} none :=
  (filter_relevant_articles_threshold_sorted_truncated {} (fun _ => 1) [artClimate]
    none none (by decide)
    (by norm_num [RankConfig.thresholdDefault])).2.2.2.2.2

/-- Claim C10: in `filter_relevant_articles` a falsy `top_n` (`None` or
`0`) and a falsy `relevance_threshold` (`None` or `0`) are replaced by the
`get_config` lookups, whose `processors.py` fallback defaults are 5 and
0.1 — so a zero truncation limit or a zero threshold can never actually be
requested through the parameters. -/
theorem filter_relevant_articles_falsy_args_use_defaults
    (c : RankConfig) (simF : Article → ℚ) (articles : List Article) :
    filter_relevant_articles c simF articles (some 0) (some 0) =
      filter_relevant_articles c simF articles none none ∧
    effTopN {} (some 0) = 5 ∧ effTopN {} none = 5 ∧
    effThreshold {} (some 0) = 1/10 ∧ effThreshold {} none = 1/10 := by
  refine ⟨?_, rfl, rfl, ?_, rfl⟩
  · unfold filter_relevant_articles effTopN effThreshold
    norm_num
  · unfold effThreshold RankConfig.thresholdDefault
    norm_num

theorem mem_removeDuplicatesGo_mem (seen : List String) (l : List Article) (a : Article)
    (h : a ∈ removeDuplicatesGo seen l) : a ∈ l := by
  induction l generalizing seen with
  | nil => simpa [removeDuplicatesGo] using h
  | cons b rest ih =>
    simp only [removeDuplicatesGo] at h
    split_ifs at h
    · rcases List.mem_cons.mp h with h2 | h2
      · subst h2; exact List.mem_cons_self _ _
      · exact List.mem_cons_of_mem _ (ih _ h2)
    · exact List.mem_cons_of_mem _ (ih _ h)

theorem mem_standardize_articles_content (rs : List NewsRaw) (src : String) (a : Article)
    (h : a ∈ standardize_articles rs src) : pyStripEmpty a.content = false := by
  simp only [standardize_articles, List.mem_filterMap] at h
  rcases h with ⟨r, _, hr⟩
  split_ifs at hr with hs
  all_goals try (cases hr)
  all_goals simp_all [stdArticle, stdContent]

/-- The Guardian item used in the C5 pipeline counterexample: full content,
matched by the query with a small positive TF-IDF similarity of 1/20. -/
def guardianRaw : NewsRaw :=
  { title := some "Solar", url := some "u", content := some "solar power growth",
    webTitle := some "Solar", webUrl := none, sourceName := none }

/-- Claim C5 counterexample: an article with non-empty content and strictly
positive similarity to the query, run through
`standardize_articles` → `remove_duplicates` → `filter_relevant_articles`
with `relevance_threshold = 0` and default `top_n` (no truncation
pressure: one article against a limit of 5), does NOT appear in the
output: `0` is falsy, line 290 replaces it by the default threshold 0.1,
and the similarity 1/20 falls below it. -/
theorem guardian_pipeline_threshold_zero_drops_article :
    filter_relevant_articles {} (fun _ => 1/20)
        (remove_duplicates (standardize_articles [guardianRaw] ("Guardian")))
        none (some 0) = [] ∧
    (0 : ℚ) < 1/20 ∧
    (stdArticle ("Guardian") guardianRaw).content ≠ "" := by
  have hded : remove_duplicates (standardize_articles [guardianRaw] ("Guardian")) =
      [stdArticle ("Guardian") guardianRaw] := by decide
  refine ⟨?_, by norm_num, by decide⟩
  rw [hded, filter_relevant_articles_branch _ _ _ _ _ (by decide)]
  have hneg : ¬ (effThreshold {} (some 0) ≤ ((1:ℚ)/20)) := by
    norm_num [effThreshold, RankConfig.thresholdDefault]
  simp only [List.filter_cons, decide_eq_true_eq]
  rw [if_neg hneg]
  rfl

/-- Claim C5, amended: with `relevance_threshold = 0` the effective
threshold is the configured default (0.1 under the `processors.py`
fallbacks), so an article that reached the ranker — its raw item had
non-empty content, so `standardize_articles` kept it, and it survived
`remove_duplicates` — appears in the output exactly when its similarity
reaches that effective threshold and it is not displaced by `top_n`
truncation (here: the surviving articles fit inside the effective
`top_n`); and `standardize_articles` keeps every raw item whose content is
non-empty after the webTitle fallback. -/
theorem guardian_pipeline_article_appears
    (c : RankConfig) (simF : Article → ℚ) (rs : List NewsRaw) (top_n : Option ℕ)
    (a : Article)
    (ha : a ∈ remove_duplicates (standardize_articles rs ("Guardian")))
    (hsim : effThreshold c (some 0) ≤ simF a)
    (hlen : ((remove_duplicates (standardize_articles rs ("Guardian"))).filter
        (fun b => decide (effThreshold c (some 0) ≤ simF b))).length ≤ effTopN c top_n) :
    a ∈ filter_relevant_articles c simF
        (remove_duplicates (standardize_articles rs ("Guardian"))) top_n (some 0) ∧
    (∀ r ∈ rs, pyStripEmpty (stdContent r) = false →
      stdArticle ("Guardian") r ∈ standardize_articles rs ("Guardian")) := by
  have hstd : a ∈ standardize_articles rs ("Guardian") :=
    mem_removeDuplicatesGo_mem [] _ a ha
  have hcontent : pyStripEmpty a.content = false :=
    mem_standardize_articles_content rs ("Guardian") a hstd
  have hconne : a.content ≠ "" := by
    intro he
    rw [he] at hcontent
    exact absurd hcontent (by decide)
  have htexta : articleText a = a.content := by
    simp [articleText, strOr, hconne]
  have htext : (((remove_duplicates (standardize_articles rs ("Guardian"))).map
      articleText).all (fun s => s == "")) = false := by
    rcases hb : (((remove_duplicates (standardize_articles rs ("Guardian"))).map
        articleText).all (fun s => s == "")) with _ | _
    · rfl
    · exfalso
      have := List.all_eq_true.mp hb (articleText a) (List.mem_map_of_mem _ ha)
      rw [beq_iff_eq, htexta] at this
      exact hconne this
  constructor
  · rw [filter_relevant_articles_branch _ _ _ _ _ htext]
    have hkept : a ∈ (remove_duplicates (standardize_articles rs ("Guardian"))).filter
        (fun b => decide (effThreshold c (some 0) ≤ simF b)) :=
      List.mem_filter.mpr ⟨ha, decide_eq_true hsim⟩
    have hsort := (mem_insertionSort_key (combinedScore c
      (remove_duplicates (standardize_articles rs ("Guardian"))) simF) _ a).mpr hkept
    have hlensort : (List.insertionSort
        (fun x y => combinedScore c (remove_duplicates (standardize_articles rs ("Guardian"))) simF y ≤
          combinedScore c (remove_duplicates (standardize_articles rs ("Guardian"))) simF x)
        ((remove_duplicates (standardize_articles rs ("Guardian"))).filter
          (fun b => decide (effThreshold c (some 0) ≤ simF b)))).length ≤ effTopN c top_n := by
      rw [(List.perm_insertionSort _ _).length_eq]
      exact hlen
    rw [List.take_of_length_le hlensort]
    exact hsort
  · intro r hr hc
    simp only [standardize_articles, List.mem_filterMap]
    exact ⟨r, hr, by rw [if_neg (by simp [hc])]⟩

/-- Witness for the amended C5: the Guardian article with similarity 1
(at or above the default threshold) appears in the pipeline output. -/
theorem guardian_pipeline_article_appears_w :
    stdArticle ("Guardian") guardianRaw ∈
      filter_relevant_articles {} (fun _ => 1)
        (remove_duplicates (standardize_articles [guardianRaw] ("Guardian")))
        none (some 0) := by
  refine (guardian_pipeline_article_appears {} (fun _ => 1) [guardianRaw] none
    (stdArticle ("Guardian") guardianRaw) (by decide) ?_ ?_).1
  · norm_num [effThreshold, RankConfig.thresholdDefault]
  · have hded : remove_duplicates (standardize_articles [guardianRaw] ("Guardian")) =
        [stdArticle ("Guardian") guardianRaw] := by decide
    rw [hded]
    have hpos : effThreshold {} (some 0) ≤ ((1:ℚ)) := by
      norm_num [effThreshold, RankConfig.thresholdDefault]
    simp [List.filter_cons, hpos, effTopN, RankConfig.topNDefault,
      List.insertionSort, List.orderedInsert]

/-!
## Sentiment scoring (`routes.py` 124-138, `processors.py` 260-272)

One classifier output: a POSITIVE/NEGATIVE label with a confidence score.
A classifier batch call either returns one result per input or raises; the
raise is modelled as `Except.error`.
-/

structure SentimentResult where
  positive : Bool
  score : ℚ
deriving Repr, DecidableEq

/-- Negate the confidence for a NEGATIVE label (`routes.py` 136-137,
`processors.py` 266-269). -/
def signedScore (r : SentimentResult) : ℚ :=
  if r.positive then r.score else -r.score

/-- `processors.analyze_sentiment` (lines 260-272): the whole body is in a
`try`, so a classifier failure — or an empty result list, where
`result[0]` raises `IndexError` — is caught and scored 0. -/
def analyze_sentiment (res : Except String (List SentimentResult)) : ℚ :=
  match res with
  | .error _ => 0
  | .ok [] => 0
  | .ok (r :: _) => signedScore r

/-- The batched scoring of `_fetch_and_process_data` (`routes.py`
129-138): two single batch calls over all titles and all contents, then
`0.3 * title + 0.7 * content` per article (`zip` stops at the shortest
list).  There is NO `try` around these lines, so a failed batch call
propagates as the error. -/
def batchSentimentScores (titleRes contentRes : Except String (List SentimentResult))
    (arts : List Article) : Except String (List Article) := do
  let tr ← titleRes
  let cr ← contentRes
  pure ((arts.zip (tr.zip cr)).map (fun p =>
    { p.1 with sentiment_score := 3/10 * signedScore p.2.1 + 7/10 * signedScore p.2.2 }))

/-- Where a batched-scoring exception lands: the body of
`_fetch_and_process_data` runs inside the `try` of lines 71-290, whose
`except` (lines 291-301) returns the generic error triple — processing of
the request is aborted, the articles are lost.  (The Python message wraps
the event in single quotes, elided here.) -/
inductive SentimentStageOutcome where
  | scored (articles : List Article)
  | abortedWithError (msg : String)
deriving Repr, DecidableEq

def runBatchSentimentStage (event : String)
    (titleRes contentRes : Except String (List SentimentResult))
    (arts : List Article) : SentimentStageOutcome :=
  match batchSentimentScores titleRes contentRes arts with
  | .ok l => .scored l
  | .error _ => .abortedWithError
      ("An unexpected error occurred while processing " ++ event ++
        ". Please try again later.")

/-- Claim C8 counterexample: a total classifier failure during the batched
scoring IS raised to the caller of the scoring step — `batchSentimentScores`
propagates the error, the pipeline-level handler aborts the whole request,
and no article with a defaulted score 0 is produced. -/
theorem batch_sentiment_failure_aborts :
    batchSentimentScores (.error "classifier failure") (.ok []) [artClimate] =
      .error "classifier failure" ∧
    runBatchSentimentStage "ai" (.error "classifier failure") (.ok []) [artClimate] =
      .abortedWithError
        ("An unexpected error occurred while processing ai. Please try again later.") ∧
    SentimentStageOutcome.abortedWithError
        ("An unexpected error occurred while processing ai. Please try again later.") ≠
      SentimentStageOutcome.scored [{ artClimate with sentiment_score := 0 }] := by
  refine ⟨rfl, rfl, by decide⟩

/-- Claim C8, amended: a total classifier failure in the BATCHED scoring
path is not defaulted to score 0 — it propagates out of the scoring step
and is absorbed only by the pipeline-level handler, which aborts the
request with the generic error result (so no exception reaches the route
layer); the per-article fallback `analyze_sentiment` is the function that
defaults a classifier failure to score 0. -/
theorem batch_sentiment_failure_handled_at_pipeline_level
    (event e : String) (cr : Except String (List SentimentResult))
    (arts : List Article) :
    batchSentimentScores (.error e) cr arts = .error e ∧
    runBatchSentimentStage event (.error e) cr arts =
      .abortedWithError
        ("An unexpected error occurred while processing " ++ event ++
          ". Please try again later.") ∧
    analyze_sentiment (.error e) = 0 := by
  refine ⟨rfl, ?_, rfl⟩
  unfold runBatchSentimentStage batchSentimentScores
  rfl

/-!
## Summarization and the post-filter return logic
(`processors.summarize_articles` 318-374, `routes.py` 182-301)
-/

/-- The GPT strategy (lines 329-352): the remote call either produces the
summary text or raises; a failure degrades to the error-marked string.
(The Python string interpolates `str(e)` after the colon.) -/
def summarizeGpt (gptRes : Except String String) : String :=
  match gptRes with
  | .ok s => s
  | .error e => "Error generating summary: " ++ e

/-- The BART strategy (lines 354-372): empty combined content
short-circuits; otherwise the local model either produces text — then
sentence-split and joined for presentation, abstracted as `fmt` — or
raises, degrading to a fixed error string. -/
def summarizeBart (fmt : String → String) (bartRes : Except String String)
    (arts : List Article) : String :=
  let combined := String.intercalate " " (arts.map (fun a => strOr a.content a.title))
  if pyStripEmpty combined then "No content available for summarization."
  else
    match bartRes with
    | .ok s => fmt s
    | .error _ => "Error generating summary."

/-- `summarize_articles` (lines 318-374): exactly one strategy runs,
chosen by the `SUMMARIZER_BY_GPT` config read at line 327. -/
def summarize_articles (useGpt : Bool) (fmt : String → String)
    (gptRes bartRes : Except String String) (arts : List Article) : String :=
  if useGpt then summarizeGpt gptRes else summarizeBart fmt bartRes arts

/-- The three shapes `_fetch_and_process_data` returns: the
`(None, None, message)` triple, the partial-failure return of line 212,
and the full response dict of lines 271-290.  (Python messages wrap the
event in single quotes, elided here.) -/
inductive FetchOutcome where
  | errorTriple (msg : String)
  | partialResult (summary : String) (articles : List Article) (warning : String)
  | fullResult (articles : List Article) (summary : String)
deriving Repr, DecidableEq

/-- The return logic of `_fetch_and_process_data` after deduplication and
filtering (lines 182-212 for the partial-failure path, lines 234-290 for
the full path), as a function of the failed sources, the filtered
articles, and the summary produced by `summarize_articles`: an empty
filtered list yields the no-relevant-articles triple in both paths; the
partial path returns the articles WITH the summary unchecked; the full
path drops the articles when the summary starts with `Error`. -/
def finalizeAfterFilter (event : String) (failedSources : List String)
    (relevantArticles : List Article) (summary : String) : FetchOutcome :=
  if relevantArticles.isEmpty then
    .errorTriple ("No relevant articles found for " ++ event ++
      " after filtering. Try a broader topic.")
  else if failedSources.isEmpty then
    if pyStartsWith summary ("Error") then
      .errorTriple ("Failed to generate a summary for " ++ event ++
        " due to processing issues.")
    else .fullResult relevantArticles summary
  else .partialResult summary relevantArticles "Showing results from available sources"

/-- The `try`/`except` of `_fetch_and_process_data` (lines 71-301): an
exception anywhere in the body becomes the generic error triple, so no
exception ever reaches the route layer. -/
def fetchAndProcessGuard (event : String) (body : Except String FetchOutcome) :
    FetchOutcome :=
  match body with
  | .ok o => o
  | .error _ => .errorTriple ("An unexpected error occurred while processing " ++
      event ++ ". Please try again later.")

/-- Claim C9 counterexample: when summarization fails on the full-success
path (no failed sources), the articles are NOT returned together with the
error-marked placeholder summary — line 246 tests
`summary.startswith("Error")` and returns the `(None, None, message)`
triple, dropping the ranked articles. -/
theorem summary_error_drops_articles_full_path :
    summarizeGpt (.error "boom") = "Error generating summary: boom" ∧
    finalizeAfterFilter "ai" [] [artClimate] ("Error generating summary: boom") =
      .errorTriple ("Failed to generate a summary for ai due to processing issues.") := by
  refine ⟨rfl, ?_⟩
  rfl

/-- Claim C9, amended: no exception ever reaches the route layer and both
summarizer strategies degrade to an error-marked string, but the articles
survive a failed summary only on the partial-failure path: with failed
sources present the articles are returned with the (possibly error-marked)
summary; with no failed sources an error-marked summary makes
`_fetch_and_process_data` return the error triple WITHOUT the articles,
while a clean summary yields the full response. -/
theorem summary_failure_recovery_paths
    (event : String) (fs : List String) (arts : List Article) (summary : String)
    (hne : arts ≠ []) :
    (fs ≠ [] → finalizeAfterFilter event fs arts summary =
      .partialResult summary arts "Showing results from available sources") ∧
    (fs = [] → pyStartsWith summary ("Error") = true →
      finalizeAfterFilter event fs arts summary =
        .errorTriple ("Failed to generate a summary for " ++ event ++
          " due to processing issues.")) ∧
    (fs = [] → pyStartsWith summary ("Error") = false →
      finalizeAfterFilter event fs arts summary = .fullResult arts summary) ∧
    (∀ e, pyStartsWith (summarizeGpt (.error e)) ("Error") = true) ∧
    (∀ fmt e, pyStartsWith (summarizeBart fmt (.error e) arts) ("Error") = true ∨
      summarizeBart fmt (.error e) arts = "No content available for summarization.") ∧
    (∀ e, fetchAndProcessGuard event (.error e) =
      .errorTriple ("An unexpected error occurred while processing " ++ event ++
        ". Please try again later.")) := by
  have hempty : arts.isEmpty = false := by
    cases arts with
    | nil => exact absurd rfl hne
    | cons a l => rfl
  refine ⟨?_, ?_, ?_, ?_, ?_, fun e => rfl⟩
  · intro hfs
    have hfse : fs.isEmpty = false := by
      cases fs with
      | nil => exact absurd rfl hfs
      | cons a l => rfl
    unfold finalizeAfterFilter
    rw [hempty, hfse]
    simp
  · intro hfs hsum
    subst hfs
    unfold finalizeAfterFilter
    rw [hempty, hsum]
    simp
  · intro hfs hsum
    subst hfs
    unfold finalizeAfterFilter
    rw [hempty, hsum]
    simp
  · intro e
    simp [summarizeGpt, pyStartsWith, String.data_append, List.isPrefixOf]
  · intro fmt e
    by_cases h : pyStripEmpty
        (String.intercalate " " (List.map (fun a => strOr a.content a.title) arts)) = true
    · right
      simp [summarizeBart, h]
    · left
      have hb : summarizeBart fmt (.error e) arts = "Error generating summary." := by
        simp [summarizeBart, h]
      rw [hb]
      decide

/-- Witness for the amended C9: on the partial-failure path the articles
are returned together with an error-marked summary. -/
theorem summary_failure_recovery_paths_w :
    finalizeAfterFilter "ai" ["NYT"] [artClimate] ("Error generating summary: boom") =
      .partialResult ("Error generating summary: boom") [artClimate]
        "Showing results from available sources" := by
  exact (summary_failure_recovery_paths "ai" ["NYT"] [artClimate]
    ("Error generating summary: boom") (by simp)).1 (by simp)
